import Mathlib

/-!
Shallow embedding of the legion ECS query engine (src/query.rs) and its
foreign interface (src/c_api.rs).

Component types are identified by natural-number type ids (standing for Rust
TypeIds).  Values stored in columns and shared slots are abstracted to Nat.
The storage layer (Chunk, Archetype, World, EntityAllocator) is not among the
provided source files; its accessors are modelled from the spec (sections 3,
4.2, 4.3, 4.4) and marked as such.  Everything from query.rs and c_api.rs is
translated directly from the source.
-/

namespace Legion

/-- Entity handle: index plus version (spec section 3). -/
structure Entity where
  index : Nat
  version : Nat
  deriving DecidableEq, Repr

/-- Modelled from the spec: a chunk column of entity data together with its
monotonic version counter (spec section 3, "Chunk"). -/
structure Column where
  values : List Nat
  version : Nat
  deriving DecidableEq, Repr

/-- Modelled from the spec: a chunk is a fixed-capacity column store holding an
entity array, one column per entity-data type, handles to the chunk set's
shared-data values, and a unique id (spec section 3, "Chunk"). -/
structure Chunk where
  id : Nat
  entities : List Entity
  columns : List (Nat × Column)
  shared : List (Nat × Nat)
  deriving DecidableEq, Repr

/-- Modelled from the spec: `Chunk::entity_data::<T>()` returns the T column
when present (spec section 4.2).  The runtime borrow check is out of scope. -/
def Chunk.entity_data (c : Chunk) (t : Nat) : Option Column :=
  c.columns.lookup t

/-- Modelled from the spec: `Chunk::entity_data_mut::<T>()` returns the T
column for exclusive access when present (spec section 4.2). -/
def Chunk.entity_data_mut (c : Chunk) (t : Nat) : Option Column :=
  c.columns.lookup t

/-- Modelled from the spec: `Chunk::entity_data_version::<T>()` returns the
current per-column version without borrowing (spec section 4.2). -/
def Chunk.entity_data_version (c : Chunk) (t : Nat) : Option Nat :=
  (c.columns.lookup t).map Column.version

/-- Modelled from the spec: `Chunk::shared_data::<T>()` returns the chunk's
shared value of type T when present (spec section 4.2). -/
def Chunk.shared_data (c : Chunk) (t : Nat) : Option Nat :=
  c.shared.lookup t

/-- Modelled from the spec: an archetype carries its entity-data signature, its
shared-data signature, and its chunks in order (spec sections 3 and 4.3). -/
structure Archetype where
  components : List Nat
  sharedTypes : List Nat
  chunks : List Chunk
  deriving DecidableEq, Repr

/-- Modelled from the spec: `Archetype::has_component::<T>()` (spec 4.3). -/
def Archetype.has_component (a : Archetype) (t : Nat) : Bool :=
  a.components.contains t

/-- Modelled from the spec: `Archetype::has_shared::<T>()` (spec 4.3). -/
def Archetype.has_shared (a : Archetype) (t : Nat) : Bool :=
  a.sharedTypes.contains t

/-! View elements (query.rs lines 66-171): `Read<T>`, `Write<T>` and
`Shared<T>`, with T identified by its type id. -/

/-- A view element: `Read<T>`, `Write<T>` or `Shared<T>` (query.rs). -/
inductive ViewElement where
  | read (t : Nat)
  | write (t : Nat)
  | shared (t : Nat)
  deriving DecidableEq, Repr

/-- Element-level `reads::<D>()`: query.rs lines 89-91 (Read), 124-126 (Write),
160-162 (Shared). -/
def elemReads : ViewElement → Nat → Bool
  | .read t, d => t == d
  | .write t, d => t == d
  | .shared _, _ => false

/-- Element-level `writes::<D>()`: query.rs lines 93-95 (Read), 128-130
(Write), 164-166 (Shared). -/
def elemWrites : ViewElement → Nat → Bool
  | .read _, _ => false
  | .write t, d => t == d
  | .shared _, _ => false

/-- The `ViewElement::Component` type id used by tuple validation: `Read<T>`
and `Write<T>` use T itself (query.rs lines 98-100, 133-135), `Shared<T>` uses
the distinct wrapper type `Shared<T>` (query.rs lines 169-171). -/
inductive ComponentId where
  | entityTy (t : Nat)
  | sharedWrapperTy (t : Nat)
  deriving DecidableEq, Repr

/-- The component type id of a view element for validation purposes. -/
def ViewElement.componentId : ViewElement → ComponentId
  | .read t => .entityTy t
  | .write t => .entityTy t
  | .shared t => .sharedWrapperTy t

/-- Tuple `reads::<Data>()` from impl_view_tuple (query.rs lines 205-207):
the OR of the elements' reads. -/
def viewReads (v : List ViewElement) (d : Nat) : Bool :=
  v.any (fun e => elemReads e d)

/-- Tuple `writes::<Data>()` exactly as the source writes it (query.rs lines
209-211): the macro ORs the elements' READS, not their writes. -/
def viewWrites (v : List ViewElement) (d : Nat) : Bool :=
  v.any (fun e => elemReads e d)

/-- The tuple `writes` the spec asks for: the OR of the elements' writes
(spec section 9, "Writes-through-view"). -/
def viewWritesSpec (v : List ViewElement) (d : Nat) : Bool :=
  v.any (fun e => elemWrites e d)

/-- Tuple `validate()` (query.rs lines 192-203): scans all index pairs i < j of
the element component type ids and fails on any equal pair.  The nested index
loop is rendered as head-versus-tail recursion, which visits the same pairs. -/
def validateTypes : List ComponentId → Bool
  | [] => true
  | t :: rest => if rest.contains t then false else validateTypes rest

/-- A view's `validate()`: pairwise-distinct element component type ids. -/
def viewValidate (v : List ViewElement) : Bool :=
  validateTypes (v.map ViewElement.componentId)

/-! Filters (query.rs lines 222-698).  A filter value is a pair of
predicates, one over archetypes and one over chunks (query.rs lines 223-229);
the stateful changed filter is modelled separately below. -/

/-- A stateless filter: the two predicates of the Filter trait (query.rs
lines 223-229). -/
structure SimpleFilter where
  archetypeP : Archetype → Bool
  chunkP : Chunk → Bool

/-- EntityDataFilter (query.rs lines 486-496): archetype must have the T
column; every chunk passes. -/
def entityDataFilter (t : Nat) : SimpleFilter :=
  { archetypeP := fun a => a.has_component t
    chunkP := fun _ => true }

/-- SharedDataFilter (query.rs lines 536-546): archetype must have shared type
T; every chunk passes. -/
def sharedDataFilter (t : Nat) : SimpleFilter :=
  { archetypeP := fun a => a.has_shared t
    chunkP := fun _ => true }

/-- SharedDataValueFilter (query.rs lines 588-598): every archetype passes;
a chunk passes when its shared value of type T exists and equals the stored
value (map_or(false, eq)). -/
def sharedDataValueFilter (t : Nat) (v : Nat) : SimpleFilter :=
  { archetypeP := fun _ => true
    chunkP := fun c => ((c.shared_data t).map (fun s => s == v)).getD false }

/-- The And combinator over a list of filters (query.rs lines 356-372): both
predicates are the conjunction of the members' predicates. -/
def andFilter (fs : List SimpleFilter) : SimpleFilter :=
  { archetypeP := fun a => fs.all (fun f => f.archetypeP a)
    chunkP := fun c => fs.all (fun f => f.chunkP c) }

/-- Per-element default filter (query.rs lines 70-76, 106-110, 141-146):
`Read<T>` and `Write<T>` contribute EntityDataFilter, `Shared<T>` contributes
SharedDataFilter. -/
def elemDefaultFilter : ViewElement → SimpleFilter
  | .read t => entityDataFilter t
  | .write t => entityDataFilter t
  | .shared t => sharedDataFilter t

/-- The tuple default filter (query.rs lines 175-183): the And of the
elements' default filters. -/
def viewDefaultFilter (v : List ViewElement) : SimpleFilter :=
  andFilter (v.map elemDefaultFilter)

/-! The stateful changed filter (query.rs lines 628-698). -/

/-- EntityDataChangedFilter state: the mutex-protected map from ChunkId to the
last observed column version (query.rs lines 630-633), modelled as an
association list.  A freshly constructed filter holds the empty map
(query.rs lines 635-642). -/
abbrev ChangedVersions := List (Nat × Nat)

/-- Overwrite the entry for a key in the observation map (the occupied-entry
write in query.rs line 666). -/
def updateVersion (key v : Nat) : ChangedVersions → ChangedVersions
  | [] => []
  | (k, old) :: rest =>
      if k == key then (k, v) :: rest else (k, old) :: updateVersion key v rest

/-- EntityDataChangedFilter::filter_chunk for element type t (query.rs lines
658-677): a chunk without a T column never matches; a vacant entry records the
version and matches; an occupied entry matches exactly when the stored version
differs from the current one, and is overwritten with the current version.
Returns the verdict together with the updated observation map. -/
def changedFilterChunk (t : Nat) (st : ChangedVersions) (c : Chunk) :
    Bool × ChangedVersions :=
  match c.entity_data_version t with
  | some version =>
      match st.lookup c.id with
      | some existing => (existing != version, updateVersion c.id version st)
      | none => (true, (c.id, version) :: st)
  | none => (false, st)

/-- EntityDataChangedFilter::filter_archetype (query.rs lines 653-656):
every archetype passes. -/
def changedFilterArchetype (_t : Nat) (_a : Archetype) : Bool :=
  true

/-! Query construction (query.rs lines 47-64). -/

/-- Query construction failure (spec section 7): InvalidView. -/
inductive QueryError where
  | invalidView
  deriving DecidableEq, Repr

/-- A constructed query: a view and its filter (query.rs lines 961-966). -/
structure QueryDefM where
  view : List ViewElement
  filter : SimpleFilter

/-- IntoQuery::query (query.rs lines 53-64): when validate fails the call
fails before any iteration (the source's duplicate-component failure, rendered
as an error value); otherwise the query pairs the view with its default
filter. -/
def intoQuery (v : List ViewElement) : Except QueryError QueryDefM :=
  if !(viewValidate v) then .error .invalidView
  else .ok { view := v, filter := viewDefaultFilter v }

/-! The serial chunk iterator (query.rs lines 700-741). -/

mutual
/-- ChunkViewIter::next (query.rs lines 716-740), translated clause for
clause.  The outer loop first examines the frontier: the source iterates over
the Option returned by one call of the frontier's next, so at most ONE chunk
is pulled per pass; a chunk passing filter_chunk is yielded with the advanced
state.  In every other case control falls into the archetype loop, which
replaces the frontier with the chunk list of the next matching archetype, or
ends the iterator when the archetypes are exhausted.  Returns the yielded
chunk together with the successor state (remaining archetypes, frontier).
The source's next also advances its state when it returns None; every consumer
in query.rs (iter_chunks loops, ChunkDataIter, ChunkEntityIter, for_each)
follows the Iterator protocol and stops at the first None, so the model treats
none as the end of the yielded sequence. -/
def chunkViewIterNext (F : SimpleFilter) :
    List Archetype → Option (List Chunk) →
    Option (Chunk × List Archetype × Option (List Chunk))
  | archs, some (x :: rest) =>
      if F.chunkP x then some (x, archs, some rest)
      else chunkViewIterScan F archs
  | archs, some [] => chunkViewIterScan F archs
  | archs, none => chunkViewIterScan F archs
termination_by archs _ => (archs.length, 1)

/-- The inner archetype loop of ChunkViewIter::next (query.rs lines 728-738):
skip archetypes failing filter_archetype; on a match install the archetype's
chunks as the new frontier and resume the outer loop; on exhaustion return
none. -/
def chunkViewIterScan (F : SimpleFilter) :
    List Archetype → Option (Chunk × List Archetype × Option (List Chunk))
  | [] => none
  | a :: rest =>
      if F.archetypeP a then chunkViewIterNext F rest (some a.chunks)
      else chunkViewIterScan F rest
termination_by archs => (archs.length, 0)
end

/-- Runs the serial chunk iterator to completion, collecting the yielded
chunks in order.  Fuel bounds the number of yields; the concrete evaluations
below reach the iterator's end well within their fuel. -/
def chunkViewIterRun (F : SimpleFilter) :
    Nat → List Archetype → Option (List Chunk) → List Chunk
  | 0, _, _ => []
  | fuel + 1, archs, frontier =>
      match chunkViewIterNext F archs frontier with
      | none => []
      | some (c, archs2, frontier2) => c :: chunkViewIterRun F fuel archs2 frontier2

/-- QueryDef::iter_chunks (query.rs lines 981-991): the iterator starts on all
the world's archetypes with no frontier. -/
def iterChunks (F : SimpleFilter) (fuel : Nat) (archs : List Archetype) :
    List Chunk :=
  chunkViewIterRun F fuel archs none

/-- The chunk sequence claim C1 describes: the archetypes passing the
archetype predicate, in order, each contributing its chunks that pass the
chunk predicate, in order. -/
def claimedChunks (F : SimpleFilter) (archs : List Archetype) : List Chunk :=
  (archs.filter F.archetypeP).flatMap (fun a => a.chunks.filter F.chunkP)

/-- QueryDef::par_iter_chunks (query.rs lines 1030-1047): filter the
archetypes, flat-map their chunks, filter the chunks. -/
def parIterChunks (F : SimpleFilter) (archs : List Archetype) : List Chunk :=
  ((archs.filter F.archetypeP).flatMap Archetype.chunks).filter F.chunkP

/-- Query::for_each via iter (query.rs lines 947-952, 993-1002): ChunkDataIter
flattens the serial chunk iterator with the view's per-chunk fetch, so the
items visited are the concatenation of the selected chunks' item lists. -/
def forEachItems {α : Type} (F : SimpleFilter) (fetch : Chunk → List α)
    (fuel : Nat) (archs : List Archetype) : List α :=
  (iterChunks F fuel archs).flatMap fetch

/-- QueryDef::par_for_each (query.rs lines 1015-1026): every chunk selected by
par_iter_chunks is consumed serially, in entity order, by one worker. -/
def parForEachItems {α : Type} (F : SimpleFilter) (fetch : Chunk → List α)
    (archs : List Archetype) : List α :=
  (parIterChunks F archs).flatMap fetch

/-! ChunkView data access (query.rs lines 1078-1135). -/

/-- Outcome of ChunkView::data or data_mut: the access guard fails, or the
call proceeds to borrow the chunk's column (query.rs lines 1117-1135). -/
inductive AccessOutcome where
  | accessNotDeclared
  | borrowed (col : Option Column)
  deriving DecidableEq, Repr

/-- ChunkView::data::<T> (query.rs lines 1117-1122): fail unless V::reads,
then borrow the chunk's column. -/
def chunkViewData (v : List ViewElement) (c : Chunk) (t : Nat) : AccessOutcome :=
  if !(viewReads v t) then .accessNotDeclared
  else .borrowed (c.entity_data t)

/-- ChunkView::data_mut::<T> (query.rs lines 1130-1135): fail unless
V::writes, then borrow the chunk's column exclusively. -/
def chunkViewDataMut (v : List ViewElement) (c : Chunk) (t : Nat) : AccessOutcome :=
  if !(viewWrites v t) then .accessNotDeclared
  else .borrowed (c.entity_data_mut t)

/-! ZipEntities (query.rs lines 1049-1104). -/

/-- The run of ZipEntities (query.rs lines 1061-1069): while the data iterator
yields, the item is paired with the entity at the running index, which the
source reads with unchecked indexing.  The model makes the unchecked access
explicit: an out-of-bounds index has no defined value, so the run yields
none. -/
def zipEntitiesRun {α : Type} (entities : List Entity) :
    List α → Nat → Option (List (Entity × α))
  | [], _ => some []
  | d :: rest, index =>
      match entities.get? index with
      | some e => (zipEntitiesRun entities rest (index + 1)).map (fun l => (e, d) :: l)
      | none => none

/-- ChunkView::iter_entities (query.rs lines 1096-1104): ZipEntities over the
chunk's entity slice and the view's fetched data, starting at index 0. -/
def chunkViewIterEntities {α : Type} (entities : List Entity) (data : List α) :
    Option (List (Entity × α)) :=
  zipEntitiesRun entities data 0

/-! The foreign interface (c_api.rs).  The World, the entity allocator and the
storage tower live in modules not among the provided source files; their state
and accessors are modelled from the spec (sections 3, 4.4, 4.5). -/

/-- Modelled from the spec: an entity's physical location (spec section 3). -/
structure Location where
  archetype : Nat
  set : Nat
  chunk : Nat
  component : Nat
  deriving DecidableEq, Repr

/-- Modelled from the spec: an allocator slot record (spec section 4.4). -/
structure AllocSlot where
  version : Nat
  location : Option Location
  deriving DecidableEq, Repr

/-- Modelled from the spec: the raw view of a column as exposed by data_raw in
c_api.rs: base pointer and element size. -/
structure RawColumn where
  base : Nat
  size : Nat
  deriving DecidableEq, Repr

/-- Modelled from the spec: a storage chunk keyed by 64-bit component type id
as the foreign interface sees it. -/
structure StorageChunk where
  components : List (Nat × RawColumn)
  deriving DecidableEq, Repr

/-- Modelled from the spec: an archetype's chunk sets (spec section 4.3). -/
structure StorageArchetype where
  chunksets : List (List StorageChunk)
  deriving DecidableEq, Repr

/-- Modelled from the spec: the world as the foreign lookup reads it:
allocator slots and archetype storage (spec sections 4.4, 4.5). -/
structure WorldModel where
  slots : List AllocSlot
  archetypes : List StorageArchetype
  deriving DecidableEq, Repr

/-- Modelled from the spec: World::is_alive is version equality at the
entity's slot (spec section 4.4). -/
def WorldModel.is_alive (w : WorldModel) (e : Entity) : Bool :=
  ((w.slots.get? e.index).map (fun s => s.version == e.version)).getD false

/-- Modelled from the spec: EntityAllocator::get_location (spec 4.4). -/
def WorldModel.get_location (w : WorldModel) (index : Nat) : Option Location :=
  (w.slots.get? index).bind AllocSlot.location

/-- Outcome of a foreign component lookup: a pointer value, or an aborted run
(the source's panicking paths). -/
inductive FfiOutcome where
  | ptr (addr : Nat)
  | panicked (msg : String)
  deriving DecidableEq, Repr

/-- lgn_world_get_rust_component (c_api.rs lines 114-135), translated step by
step: a dead entity aborts with message AA; each unwrap on the location,
archetype, chunk-set, chunk and component lookups aborts when absent; on
success the returned pointer is the column base offset by size times the
entity's row. -/
def lgn_world_get_rust_component (w : WorldModel) (ty : Nat) (e : Entity) :
    FfiOutcome :=
  if !(w.is_alive e) then .panicked "AA"
  else
    match w.get_location e.index with
    | none => .panicked "unwrap"
    | some location =>
        match w.archetypes.get? location.archetype with
        | none => .panicked "unwrap"
        | some archetype =>
            match archetype.chunksets.get? location.set with
            | none => .panicked "unwrap"
            | some chunkset =>
                match chunkset.get? location.chunk with
                | none => .panicked "unwrap"
                | some chunk =>
                    match chunk.components.lookup ty with
                    | none => .panicked "unwrap"
                    | some col => .ptr (col.base + col.size * location.component)

/-! Concrete worlds used by the evaluations below. -/

/-- Concrete chunk with id 1 (it will fail the chunk predicate below). -/
def chunkOne : Chunk :=
  { id := 1, entities := [], columns := [], shared := [] }

/-- Concrete chunk with id 2, holding one entity (it passes the predicate). -/
def chunkTwo : Chunk :=
  { id := 2, entities := [{ index := 0, version := 0 }], columns := [], shared := [] }

/-- Concrete archetype whose chunk list is the failing chunk followed by the
passing chunk. -/
def archOne : Archetype :=
  { components := [], sharedTypes := [], chunks := [chunkOne, chunkTwo] }

/-- Concrete filter: every archetype passes, a chunk passes unless its id
is 1.  SharedDataValueFilter produces predicates of exactly this shape. -/
def skipFilter : SimpleFilter :=
  { archetypeP := fun _ => true, chunkP := fun c => c.id != 1 }

/-- Concrete per-chunk fetch: one item per chunk, carrying the chunk id. -/
def idFetch (c : Chunk) : List Nat :=
  [c.id]

/-- Concrete chunk with a component-0 column at version 5. -/
def chunkWithColumn : Chunk :=
  { id := 3, entities := [],
    columns := [(0, { values := [], version := 5 })], shared := [] }

/-- Concrete empty world: every entity is dead. -/
def deadWorld : WorldModel :=
  { slots := [], archetypes := [] }

/-- Concrete world with one live entity at location (0,0,0,0) whose chunk has
no component columns at all. -/
def liveWorld : WorldModel :=
  { slots := [{ version := 0,
                location := some { archetype := 0, set := 0, chunk := 0, component := 0 } }],
    archetypes := [{ chunksets := [[{ components := [] }]] }] }

/-- Concrete entity handle with index 0 and version 0. -/
def entityZero : Entity :=
  { index := 0, version := 0 }

/-! Helper lemmas. -/

/-- The source's pairwise validation loop succeeds exactly on duplicate-free
component type lists. -/
theorem validateTypes_eq_true_iff (l : List ComponentId) :
    validateTypes l = true ↔ l.Nodup := by
  induction l with
  | nil => simp [validateTypes]
  | cons t rest ih =>
      by_cases h : t ∈ rest
      · have : rest.contains t = true := List.elem_iff.mpr h
        simp [validateTypes, this, List.nodup_cons, h]
      · have : rest.contains t = false := by
          cases hc : rest.contains t
          · rfl
          · exact absurd (List.elem_iff.mp hc) h
        simp [validateTypes, this, List.nodup_cons, h, ih]

/-- The ZipEntities run, started at index i with enough entities left, pairs
the data items with the entity slice from i on, in order. -/
theorem zipEntitiesRun_eq_zip {α : Type} (entities : List Entity)
    (data : List α) (i : Nat) (h : i + data.length ≤ entities.length) :
    zipEntitiesRun entities data i = some ((entities.drop i).zip data) := by
  induction data generalizing i with
  | nil => simp [zipEntitiesRun]
  | cons d rest ih =>
      have hi : i < entities.length := by
        simp at h
        omega
      have hget : entities.get? i = some entities[i] := by
        simp [List.get?_eq_getElem?, List.getElem?_eq_getElem hi]
      have hdrop : entities.drop i = entities[i] :: entities.drop (i + 1) :=
        List.drop_eq_getElem_cons hi
      have hrest : i + 1 + rest.length ≤ entities.length := by
        simp at h
        omega
      rw [zipEntitiesRun, hget, ih (i + 1) hrest, hdrop]
      rfl

/-! Theorems for the claims. -/

/-- On the concrete world above, the first call of ChunkViewIter::next already
ends the iteration: the failing first chunk sends control into the archetype
loop, which finds no further archetype, and the passing second chunk is never
examined. -/
theorem chunkViewIterNext_skips_after_failing_chunk :
    chunkViewIterNext skipFilter [archOne] none = none := by
  rw [chunkViewIterNext, chunkViewIterScan]
  simp [skipFilter, archOne]
  rw [chunkViewIterNext]
  simp [chunkOne, skipFilter]
  rw [chunkViewIterScan]

/-- Claim C1 (code bug witness): on a world with a single matching archetype
whose first chunk fails the chunk predicate and whose second chunk passes it,
the very first call of ChunkViewIter::next returns none, so the serial
iteration (iter_chunks, hence iter, iter_entities, for_each) yields no chunk
at all, while the claim's chunk sequence contains the second chunk: a chunk
failing the chunk predicate makes the iterator abandon the remaining chunks of
its archetype. -/
theorem c1_failing_chunk_skips_rest_of_archetype :
    chunkViewIterNext skipFilter [archOne] none = none ∧
    iterChunks skipFilter 10 [archOne] = [] ∧
    claimedChunks skipFilter [archOne] = [chunkTwo] ∧
    ([] : List Chunk) ≠ [chunkTwo] := by
  refine ⟨chunkViewIterNext_skips_after_failing_chunk, ?_, by rfl, by simp⟩
  simp [iterChunks, chunkViewIterRun, chunkViewIterNext_skips_after_failing_chunk]

/-- Claim C2 (code bug witness): the one-element tuple view (Read 0,) reports
writes for component 0 because the tuple macro ORs the elements' reads, while
the OR of the elements' writes — the behaviour the claim states — is false for
a tuple containing only Read elements. -/
theorem c2_tuple_writes_is_or_of_reads :
    viewWrites [ViewElement.read 0] 0 = true ∧
    viewWritesSpec [ViewElement.read 0] 0 = false ∧
    elemWrites (ViewElement.read 0) 0 = false := by
  decide

/-- Claim C3 (code bug witness): with the same archetype and filter as in C1,
the parallel chunk selection keeps the passing second chunk, so par_for_each
applies the function to one item, while for_each applies it to none: the two
visit different multisets. -/
theorem c3_par_for_each_diverges_from_for_each :
    parForEachItems skipFilter idFetch [archOne] = [2] ∧
    forEachItems skipFilter idFetch 10 [archOne] = [] ∧
    ¬ List.Perm ([] : List Nat) [2] := by
  refine ⟨by rfl, ?_, by decide⟩
  simp [forEachItems, iterChunks, chunkViewIterRun,
    chunkViewIterNext_skips_after_failing_chunk]

/-- Claim C4: ChunkView::data fails with AccessNotDeclared exactly when the
view does not read T, ChunkView::data_mut fails exactly when the view does not
write T, and when the guard passes each call proceeds to borrow the chunk's
column. -/
theorem c4_data_access_guard (v : List ViewElement) (c : Chunk) (t : Nat) :
    (chunkViewData v c t = .accessNotDeclared ↔ viewReads v t = false) ∧
    (viewReads v t = true → chunkViewData v c t = .borrowed (c.entity_data t)) ∧
    (chunkViewDataMut v c t = .accessNotDeclared ↔ viewWrites v t = false) ∧
    (viewWrites v t = true → chunkViewDataMut v c t = .borrowed (c.entity_data_mut t)) := by
  refine ⟨?_, ?_, ?_, ?_⟩ <;>
    first
      | (cases h : viewReads v t <;> simp [chunkViewData, h])
      | (cases h : viewWrites v t <;> simp [chunkViewDataMut, h])

/-- Claim C5: query construction fails with InvalidView exactly when two
elements of the view share a component type id; on a duplicate-free view,
validate succeeds and the query pairs the view with its default filter. -/
theorem c5_query_construction_validates (v : List ViewElement) :
    (intoQuery v = .error QueryError.invalidView ↔
      ¬ (v.map ViewElement.componentId).Nodup) ∧
    ((v.map ViewElement.componentId).Nodup →
      viewValidate v = true ∧
      intoQuery v = .ok { view := v, filter := viewDefaultFilter v }) := by
  have hval : viewValidate v = true ↔ (v.map ViewElement.componentId).Nodup :=
    validateTypes_eq_true_iff (v.map ViewElement.componentId)
  cases h : viewValidate v
  · simp [intoQuery, h]
    exact fun hn => by simp [hval.mpr hn] at h
  · simp [intoQuery, h]
    exact hval.mp h

/-- Claim C6: a freshly created change filter matches a chunk carrying a T
column on first evaluation, does not match it again when the column version is
unchanged in between, and never matches a chunk without a T column. -/
theorem c6_changed_filter_idempotent (t : Nat) (c : Chunk) (ver : Nat)
    (h : c.entity_data_version t = some ver) :
    (changedFilterChunk t [] c).1 = true ∧
    (changedFilterChunk t (changedFilterChunk t [] c).2 c).1 = false ∧
    (∀ (st : ChangedVersions) (c2 : Chunk), c2.entity_data_version t = none →
      (changedFilterChunk t st c2).1 = false) := by
  refine ⟨?_, ?_, ?_⟩
  · simp [changedFilterChunk, h]
  · simp [changedFilterChunk, h, List.lookup]
  · intro st c2 h2
    simp [changedFilterChunk, h2]

/-- Claim C6, witness: the fresh change filter on a concrete chunk whose
component-0 column is at version 5. -/
theorem c6_changed_filter_idempotent_witness :
    (changedFilterChunk 0 [] chunkWithColumn).1 = true ∧
    (changedFilterChunk 0 (changedFilterChunk 0 [] chunkWithColumn).2 chunkWithColumn).1 = false ∧
    (∀ (st : ChangedVersions) (c2 : Chunk), c2.entity_data_version 0 = none →
      (changedFilterChunk 0 st c2).1 = false) :=
  c6_changed_filter_idempotent 0 chunkWithColumn 5 rfl

/-- Claim C7: the default filter of a view accepts an archetype exactly when
the archetype has the entity-data component of every Read and Write element
and the shared-data type of every Shared element, and its chunk predicate
accepts every chunk. -/
theorem c7_default_filter_conjunction (v : List ViewElement) (a : Archetype) :
    ((viewDefaultFilter v).archetypeP a = true ↔
      ((∀ t, ViewElement.read t ∈ v → a.has_component t = true) ∧
       (∀ t, ViewElement.write t ∈ v → a.has_component t = true) ∧
       (∀ t, ViewElement.shared t ∈ v → a.has_shared t = true))) ∧
    (∀ c : Chunk, (viewDefaultFilter v).chunkP c = true) := by
  have hall : ∀ (l : List ViewElement) (p : SimpleFilter → Bool),
      (l.map elemDefaultFilter).all p = l.all fun e => p (elemDefaultFilter e) := by
    intro l p
    induction l with
    | nil => rfl
    | cons x xs ih => simp [List.all_cons, ih]
  have harch : (viewDefaultFilter v).archetypeP a
      = v.all (fun e => (elemDefaultFilter e).archetypeP a) :=
    hall v _
  have hchunk : ∀ c : Chunk, (viewDefaultFilter v).chunkP c
      = v.all (fun e => (elemDefaultFilter e).chunkP c) :=
    fun c => hall v _
  constructor
  · rw [harch, List.all_eq_true]
    constructor
    · intro h
      refine ⟨fun t ht => ?_, fun t ht => ?_, fun t ht => ?_⟩
      · simpa [elemDefaultFilter, entityDataFilter] using h _ ht
      · simpa [elemDefaultFilter, entityDataFilter] using h _ ht
      · simpa [elemDefaultFilter, sharedDataFilter] using h _ ht
    · rintro ⟨hr, hw, hs⟩ e he
      cases e with
      | read t => simpa [elemDefaultFilter, entityDataFilter] using hr t he
      | write t => simpa [elemDefaultFilter, entityDataFilter] using hw t he
      | shared t => simpa [elemDefaultFilter, sharedDataFilter] using hs t he
  · intro c
    rw [hchunk, List.all_eq_true]
    intro e _
    cases e <;> simp [elemDefaultFilter, entityDataFilter, sharedDataFilter]

/-- Claim C8 (code bug witness): the foreign component lookup does not return
null for a dead entity or a missing component: it aborts.  On the empty world
every entity is dead and the call aborts with message AA; on a world with a
live entity whose chunk lacks component 7 the call aborts in an unwrap.  In
neither case is any pointer (null or otherwise) returned. -/
theorem c8_foreign_lookup_aborts :
    WorldModel.is_alive deadWorld entityZero = false ∧
    lgn_world_get_rust_component deadWorld 7 entityZero = .panicked "AA" ∧
    WorldModel.is_alive liveWorld entityZero = true ∧
    lgn_world_get_rust_component liveWorld 7 entityZero = .panicked "unwrap" ∧
    (∀ addr, lgn_world_get_rust_component deadWorld 7 entityZero ≠ .ptr addr) ∧
    (∀ addr, lgn_world_get_rust_component liveWorld 7 entityZero ≠ .ptr addr) := by
  refine ⟨rfl, rfl, rfl, rfl, fun addr h => ?_, fun addr h => ?_⟩
  · exact FfiOutcome.noConfusion
      ((rfl : lgn_world_get_rust_component deadWorld 7 entityZero
          = FfiOutcome.panicked "AA").symm.trans h)
  · exact FfiOutcome.noConfusion
      ((rfl : lgn_world_get_rust_component liveWorld 7 entityZero
          = FfiOutcome.panicked "unwrap").symm.trans h)

/-- Claim C9: the shared-data value filter accepts a chunk exactly when the
chunk has a shared value of the given type and that value equals the filter's
value — a chunk without such a shared value simply does not match — and its
archetype predicate accepts every archetype. -/
theorem c9_shared_value_filter (t v : Nat) (c : Chunk) (a : Archetype) :
    ((sharedDataValueFilter t v).chunkP c = true ↔ c.shared_data t = some v) ∧
    (sharedDataValueFilter t v).archetypeP a = true := by
  constructor
  · cases h : c.shared_data t <;> simp [sharedDataValueFilter, h]
  · rfl

/-- Claim C10: when the view's data iterator yields at most as many items as
the chunk has entities, ChunkView::iter_entities stays in bounds (the run is
defined), pairs the i-th data item with the i-th entity, and yields exactly as
many pairs as there are data items. -/
theorem c10_zip_entities_in_bounds {α : Type} (entities : List Entity)
    (data : List α) (h : data.length ≤ entities.length) :
    chunkViewIterEntities entities data = some (entities.zip data) ∧
    (entities.zip data).length = data.length := by
  constructor
  · have := zipEntitiesRun_eq_zip entities data 0 (by omega)
    simpa [chunkViewIterEntities] using this
  · simp [List.length_zip]
    omega

/-- Claim C10, witness: two entities, one data item. -/
theorem c10_zip_entities_in_bounds_witness :
    chunkViewIterEntities [entityZero, entityZero] [10] =
      some ([entityZero, entityZero].zip [10]) ∧
    ([entityZero, entityZero].zip [10]).length = [10].length :=
  c10_zip_entities_in_bounds [entityZero, entityZero] [10] (by decide)

end Legion
